import Mathlib

/-
  Shallow embedding of the Worker Brokerage subsystem
  (Code/Tools/FBuild/FBuildCore/WorkerPool/WorkerBrokerage.cpp and its header).

  The brokerage is modelled as a pure state machine:
  - `State` mirrors the member fields of class `WorkerBrokerage`;
  - `Env` captures the inputs read at `Init` time (environment variables,
    host name, protocol version constant);
  - `World` captures the external nondeterminism observed during a call
    (TCP connect success, file existence, directory listing, the worker
    list delivered by the coordinator callback);
  - operations return the successor state together with a trace of
    externally visible `Effect`s (network and filesystem operations).

  The Linux path format of `Init` is modelled (the `#else` branch of the
  source); the throttle timer is modelled by remembering the time (in ms)
  at which it was last started, with `elapsed = now - timerLastUpdate`.
  `FindWorkers`'s blocking wait is modelled in two parts: `findWorkers`
  describes a completed execution (the callback delivered
  `World.coordinatorReply`), while `spinWait` embeds the polling loop
  itself so that its (non-)termination can be reasoned about.
-/

namespace WorkerBrokerage

/-- Lower-casing of a string, character by character (the comparison
underlying `AString::CompareI`). -/
def toLowerStr (s : String) : String := String.mk (s.data.map Char.toLower)

/-- Case-insensitive string equality: `AString::CompareI` returns 0 exactly
when the two strings are equal ignoring case; `compareI a b = true` models
that return value being 0. -/
def compareI (a b : String) : Bool := toLowerStr a == toLowerStr b

/-- Modelled from the spec: `TCPConnectionPool::GetAddressAsString` (the wire
layer, outside this repository) converts a packed 32-bit IPv4 address to its
dotted-quad string; the spec fixes 0x0A000005 ↦ "10.0.0.5" and
0x7F000001 ↦ "127.0.0.1", i.e. octets from most significant. -/
def getAddressAsString (a : Nat) : String :=
  toString (a / 16777216 % 256) ++ "." ++ toString (a / 65536 % 256) ++ "."
    ++ toString (a / 256 % 256) ++ "." ++ toString (a % 256)

/-- The basename of a path: the characters after the last native slash
(`fileName.FindLast( NATIVE_SLASH )` then `lastSlash + 1` in the source,
with '/' as the native slash on Linux). -/
def lastComponent (path : String) : String :=
  String.mk ((path.data.reverse.takeWhile (fun c => c ≠ '/')).reverse)

/-- Inputs read during `Init`: the two environment variables (`none` models
`Env::GetEnvVariable` returning false), the host name from
`Network::GetHostName`, and the `Protocol::PROTOCOL_VERSION` constant. -/
structure Env where
  coordinatorVar : Option String
  brokeragePathVar : Option String
  hostName : String
  protocolVersion : Nat
  deriving Repr, DecidableEq

/-- The member fields of class `WorkerBrokerage`. The throttle timer is
represented by the time (ms) at which it was last started; the pending
worker-list update is a list of packed 32-bit addresses. -/
structure State where
  brokerageRoot : String
  availability : Bool
  initialized : Bool
  hostName : String
  brokerageFilePath : String
  coordinatorAddress : String
  timerLastUpdate : Nat
  workerListUpdate : List Nat
  workerListUpdateReady : Bool
  deriving Repr, DecidableEq

/-- The state established by the constructor `WorkerBrokerage()`. -/
def initialState : State :=
  { brokerageRoot := ""
    availability := false
    initialized := false
    hostName := ""
    brokerageFilePath := ""
    coordinatorAddress := ""
    timerLastUpdate := 0
    workerListUpdate := []
    workerListUpdateReady := false }

/-- External nondeterminism observed during one brokerage call: whether a
TCP connect attempt succeeds, which files exist, the directory listing
returned by `FileIO::GetFiles` (`none` models it returning false), and the
packed address list delivered by the coordinator callback. -/
structure World where
  connectOk : Bool
  fileExists : String → Bool
  dirListing : Option (List String)
  coordinatorReply : List Nat

/-- Externally visible operations performed by a brokerage call. -/
inductive Effect where
  | warn (msg : String)
  | connectAttempt (addr : String) (ok : Bool)
  | sendRequestWorkerList
  | sendSetWorkerStatus (b : Bool)
  | disconnect
  | enumerateDir (dir : String)
  | checkFileExists (path : String)
  | ensurePathExists (path : String)
  | createFile (path : String)
  | deleteFile (path : String)
  deriving Repr, DecidableEq

/-- Whether an effect is a filesystem-backend operation (as opposed to a
network operation or a log message). -/
def Effect.isFileSystemOp : Effect → Bool
  | .enumerateDir _ => true
  | .checkFileExists _ => true
  | .ensurePathExists _ => true
  | .createFile _ => true
  | .deleteFile _ => true
  | _ => false

/-- `WorkerBrokerage::Init`: resolve the host name; adopt
`FASTBUILD_COORDINATOR` when the coordinator address is empty; when the
coordinator address is (still) empty, build the brokerage root from
`FASTBUILD_BROKERAGE_PATH` (Linux format `<path>/main/<version>.linux/`)
and format the sentinel file path `<root><hostName>`; start the throttle
timer; mark initialized. A second call returns immediately. -/
def init (env : Env) (now : Nat) (s : State) : State :=
  if s.initialized then s
  else
    let hostName := env.hostName
    let coordinatorAddress :=
      if s.coordinatorAddress = "" then
        match env.coordinatorVar with
        | some c => c
        | none => s.coordinatorAddress
      else s.coordinatorAddress
    if coordinatorAddress = "" then
      let brokerageRoot :=
        match env.brokeragePathVar with
        | some root => root ++ "/main/" ++ toString env.protocolVersion ++ ".linux/"
        | none => s.brokerageRoot
      { s with hostName := hostName
               coordinatorAddress := coordinatorAddress
               brokerageRoot := brokerageRoot
               brokerageFilePath := brokerageRoot ++ hostName
               timerLastUpdate := now
               initialized := true }
    else
      { s with hostName := hostName
               coordinatorAddress := coordinatorAddress
               timerLastUpdate := now
               initialized := true }

/-- `WorkerBrokerage::ConnectToCoordinator`: attempts a connection only when
the coordinator address is non-empty; returns whether a connection was
obtained, plus the connect-attempt effect when one was made. -/
def connectToCoordinator (s : State) (w : World) : Bool × List Effect :=
  if s.coordinatorAddress = "" then (false, [])
  else (w.connectOk, [Effect.connectAttempt s.coordinatorAddress w.connectOk])

/-- The body of `WorkerBrokerage::FindWorkers` after the initial `Init()`
call, for a completed execution (when the coordinator path is taken, the
callback delivered `w.coordinatorReply`; the polling loop itself is
embedded separately as `spinWait`). Returns the successor state, the
caller's worker list, and the trace of effects. -/
def findWorkersPostInit (s : State) (w : World) (workerList : List String) :
    State × List String × List Effect :=
  if s.brokerageRoot = "" ∧ s.coordinatorAddress = "" then
    (s, workerList, [Effect.warn "No brokerage root and no coordinator available"])
  else
    let conn := connectToCoordinator s w
    if conn.1 then
      let s1 : State :=
        { s with workerListUpdate := w.coordinatorReply, workerListUpdateReady := true }
      let effs := conn.2 ++ [Effect.sendRequestWorkerList, Effect.disconnect]
      if s1.workerListUpdate.length = 0 then
        (s1, workerList, effs ++ [Effect.warn "No workers received from coordinator"])
      else
        let names := s1.workerListUpdate.map getAddressAsString
        let kept := names.filter fun n => !compareI n s.hostName && !compareI n "127.0.0.1"
        ({ s1 with workerListUpdate := [] }, workerList ++ kept, effs)
    else if s.brokerageRoot ≠ "" then
      match w.dirListing with
      | none =>
          (s, workerList,
           conn.2 ++ [Effect.enumerateDir s.brokerageRoot, Effect.warn "No workers found"])
      | some files =>
          let names := files.map lastComponent
          let kept := names.filter fun n => !compareI n s.hostName
          (s, workerList ++ kept, conn.2 ++ [Effect.enumerateDir s.brokerageRoot])
    else (s, workerList, conn.2)

/-- `WorkerBrokerage::FindWorkers`: `Init()` followed by the body. -/
def findWorkers (env : Env) (now : Nat) (w : World) (s : State)
    (workerList : List String) : State × List String × List Effect :=
  findWorkersPostInit (init env now s) w workerList

/-- `WorkerBrokerage::UpdateWorkerList`: take ownership of the delivered
packed-address list and set the ready flag. -/
def updateWorkerList (s : State) (workerListUpdate : List Nat) : State :=
  { s with workerListUpdate := workerListUpdate, workerListUpdateReady := true }

/-- The polling loop of `FindWorkers` (`while (!m_WorkerListUpdateReady)
Thread::Sleep(1)`), embedded with explicit fuel: `ready t` is the value of
the ready flag observed at iteration `t`. `spinWait ready fuel t` returns
`some u` when the flag was first seen true at iteration `u < t + fuel`, and
`none` when the fuel ran out first; the loop itself has no other exit. -/
def spinWait (ready : Nat → Bool) : Nat → Nat → Option Nat
  | 0, _ => none
  | fuel + 1, t => if ready t then some t else spinWait ready fuel (t + 1)

/-- The body of `WorkerBrokerage::SetAvailability` after the initial
`Init()` call. Returns the successor state and the trace of effects. -/
def setAvailabilityPostInit (s : State) (w : World) (now : Nat) (available : Bool) :
    State × List Effect :=
  if s.brokerageRoot = "" ∧ s.coordinatorAddress = "" then (s, [])
  else if available then
    if 10000 ≤ now - s.timerLastUpdate then
      let conn := connectToCoordinator s w
      if conn.1 then
        ({ s with availability := available },
         conn.2 ++ [Effect.sendSetWorkerStatus available, Effect.disconnect])
      else if w.fileExists s.brokerageFilePath then
        ({ s with availability := available },
         conn.2 ++ [Effect.checkFileExists s.brokerageFilePath])
      else
        ({ s with availability := available, timerLastUpdate := now },
         conn.2 ++ [Effect.checkFileExists s.brokerageFilePath,
                    Effect.ensurePathExists s.brokerageRoot,
                    Effect.createFile s.brokerageFilePath])
    else ({ s with availability := available }, [])
  else if s.availability ≠ available then
    let conn := connectToCoordinator s w
    if conn.1 then
      ({ s with availability := available, timerLastUpdate := now },
       conn.2 ++ [Effect.sendSetWorkerStatus available, Effect.disconnect])
    else
      ({ s with availability := available, timerLastUpdate := now },
       conn.2 ++ [Effect.deleteFile s.brokerageFilePath])
  else ({ s with availability := available }, [])

/-- `WorkerBrokerage::SetAvailability`: `Init()` followed by the body. -/
def setAvailability (env : Env) (now : Nat) (w : World) (s : State)
    (available : Bool) : State × List Effect :=
  setAvailabilityPostInit (init env now s) w now available

/-- The destructor `WorkerBrokerage::~WorkerBrokerage`: deletes the sentinel
file when availability is still advertised. -/
def destruct (s : State) : List Effect :=
  if s.availability then [Effect.deleteFile s.brokerageFilePath] else []

/-- Interpretation of one effect on a file system modelled as the set of
existing paths. -/
def applyEffect (fe : String → Bool) : Effect → String → Bool
  | .createFile q => fun p => p == q || fe p
  | .deleteFile q => fun p => !(p == q) && fe p
  | _ => fe

/-- Interpretation of an effect trace on a file system. -/
def applyEffects (fe : String → Bool) : List Effect → String → Bool
  | [] => fe
  | e :: rest => applyEffects (applyEffect fe e) rest

/-! ### Concrete fixtures used by counterexamples and witnesses -/

/-- Environment selecting the filesystem backend
(`FASTBUILD_BROKERAGE_PATH=/b`, host `build-07`, protocol version 1). -/
def envFs : Env :=
  { coordinatorVar := none, brokeragePathVar := some "/b"
    hostName := "build-07", protocolVersion := 1 }

/-- Environment selecting the coordinator backend
(`FASTBUILD_COORDINATOR=10.0.0.1`, with `FASTBUILD_BROKERAGE_PATH` also set). -/
def envC : Env :=
  { coordinatorVar := some "10.0.0.1", brokeragePathVar := some "/b"
    hostName := "build-07", protocolVersion := 1 }

/-- Environment with neither variable set (brokerage disabled). -/
def envN : Env :=
  { coordinatorVar := none, brokeragePathVar := none
    hostName := "build-07", protocolVersion := 1 }

/-- A world where the rendezvous directory holds sentinel files named
`127.0.0.1`, `build-03` and `BUILD-07`, and no connection succeeds. -/
def wFs : World :=
  { connectOk := false
    fileExists := fun _ => false
    dirListing := some ["/b/main/1.linux/127.0.0.1", "/b/main/1.linux/build-03",
                        "/b/main/1.linux/BUILD-07"]
    coordinatorReply := [] }

/-- A world where the coordinator is reachable and replies with
`[10.0.0.5, 10.0.0.7, 127.0.0.1]` (packed). -/
def wC : World :=
  { connectOk := true
    fileExists := fun _ => false
    dirListing := none
    coordinatorReply := [0x0A000005, 0x0A000007, 0x7F000001] }

/-- A world where every connection attempt fails and no file exists. -/
def wCfail : World :=
  { connectOk := false, fileExists := fun _ => false
    dirListing := none, coordinatorReply := [] }

/-! ### Helper lemmas about `init` -/

lemma init_initialized (env : Env) (now : Nat) (s : State) :
    (init env now s).initialized = true := by
  simp only [init]
  split
  · next h => exact h
  · split <;> first
      | rfl
      | (split <;> rfl)

lemma init_of_initialized (env : Env) (now : Nat) (s : State)
    (h : s.initialized = true) : init env now s = s := by
  simp [init, h]

lemma init_availability (env : Env) (now : Nat) (s : State) :
    (init env now s).availability = s.availability := by
  simp only [init]
  split
  · rfl
  · split <;> first
      | rfl
      | (split <;> rfl)

lemma init_coordinator (env : Env) (c : String) (hc : env.coordinatorVar = some c)
    (hne : c ≠ "") (t0 : Nat) :
    init env t0 initialState =
      { initialState with
          hostName := env.hostName
          coordinatorAddress := c
          timerLastUpdate := t0
          initialized := true } := by
  simp [init, initialState, hc, hne]

/-- Characterization of the worker list produced by the body of
`FindWorkers`: the caller's list with the filtered backend names appended. -/
lemma findWorkersPostInit_list (s : State) (w : World) (l : List String) :
    (findWorkersPostInit s w l).2.1 =
      if s.brokerageRoot = "" ∧ s.coordinatorAddress = "" then l
      else if s.coordinatorAddress ≠ "" ∧ w.connectOk = true then
        l ++ (w.coordinatorReply.map getAddressAsString).filter
              (fun n => !compareI n s.hostName && !compareI n "127.0.0.1")
      else if s.brokerageRoot ≠ "" then
        match w.dirListing with
        | none => l
        | some files => l ++ (files.map lastComponent).filter (fun n => !compareI n s.hostName)
      else l := by
  by_cases hc : s.coordinatorAddress = ""
  · by_cases hr : s.brokerageRoot = ""
    · simp [findWorkersPostInit, connectToCoordinator, hc, hr]
    · rcases hd : w.dirListing with _ | files
      · simp [findWorkersPostInit, connectToCoordinator, hc, hr, hd]
      · simp [findWorkersPostInit, connectToCoordinator, hc, hr, hd]
  · by_cases hw : w.connectOk
    · by_cases hlen : w.coordinatorReply.length = 0
      · have hnil : w.coordinatorReply = [] := List.length_eq_zero.mp hlen
        simp [findWorkersPostInit, connectToCoordinator, hc, hw, hlen, hnil]
      · simp [findWorkersPostInit, connectToCoordinator, hc, hw, hlen]
    · by_cases hr : s.brokerageRoot = ""
      · simp [findWorkersPostInit, connectToCoordinator, hc, hw, hr]
      · rcases hd : w.dirListing with _ | files
        · simp [findWorkersPostInit, connectToCoordinator, hc, hw, hr, hd]
        · simp [findWorkersPostInit, connectToCoordinator, hc, hw, hr, hd]

/-- The availability field after the body of `SetAvailability`: updated to
the argument unless the brokerage is unconfigured. -/
lemma setAvailabilityPostInit_availability (s : State) (w : World) (now : Nat) (b : Bool) :
    (setAvailabilityPostInit s w now b).1.availability =
      if s.brokerageRoot = "" ∧ s.coordinatorAddress = "" then s.availability else b := by
  simp only [setAvailabilityPostInit]
  repeat' split
  all_goals rfl

lemma spinWait_ready_of_some {ready : Nat → Bool} {fuel t r : Nat}
    (h : spinWait ready fuel t = some r) : ready r = true := by
  induction fuel generalizing t with
  | zero => simp [spinWait] at h
  | succ n ih =>
    rw [spinWait] at h
    by_cases hr : ready t
    · rw [if_pos hr] at h
      injection h with h2
      subst h2
      exact hr
    · rw [if_neg hr] at h
      exact ih h

lemma spinWait_reaches {ready : Nat → Bool} :
    ∀ (k t : Nat), ready (t + k) = true → ∃ r, spinWait ready (k + 1) t = some r := by
  intro k
  induction k with
  | zero =>
    intro t h
    have h2 : ready t = true := by simpa using h
    exact ⟨t, by rw [spinWait, if_pos h2]⟩
  | succ n ih =>
    intro t h
    by_cases hr : ready t
    · exact ⟨t, by rw [spinWait, if_pos hr]⟩
    · have heq : t + 1 + n = t + (n + 1) := by omega
      obtain ⟨r, hr2⟩ := ih (t + 1) (by rw [heq]; exact h)
      exact ⟨r, by rw [spinWait, if_neg hr]; exact hr2⟩

/-! ### Claim theorems -/

/-- C6: when FindWorkers has connected and sent RequestWorkerList, the wait
is a poll of the ready flag with no timeout: the polling loop terminates
(for some fuel bound) if and only if the ready flag is eventually observed
true, and the UpdateWorkerList callback is exactly what sets that flag
(taking ownership of the delivered list); if the callback never arrives,
no amount of fuel makes the loop return. -/
theorem c6_theorem :
    (∀ ready : Nat → Bool,
        (∃ fuel r, spinWait ready fuel 0 = some r) ↔ (∃ t, ready t = true))
    ∧ (∀ (s : State) (u : List Nat),
        (updateWorkerList s u).workerListUpdateReady = true ∧
        (updateWorkerList s u).workerListUpdate = u) := by
  constructor
  · intro ready
    constructor
    · rintro ⟨fuel, r, h⟩
      exact ⟨r, spinWait_ready_of_some h⟩
    · rintro ⟨t, ht⟩
      obtain ⟨r, hr⟩ := spinWait_reaches t 0 (by simpa using ht)
      exact ⟨t + 1, r, hr⟩
  · exact fun s u => ⟨rfl, rfl⟩

/-- C6 witness: a flag that becomes true at iteration 3 makes the polling
loop return. -/
theorem c6_witness :
    ∃ fuel r, spinWait (fun t => t == 3) fuel 0 = some r :=
  (c6_theorem.1 (fun t => t == 3)).mpr ⟨3, by decide⟩

/-- C8: on destruction, if AvailabilityState is true and the filesystem
backend is selected (no coordinator, non-empty root, sentinel path equal to
root ++ host identity as Init establishes), the destructor deletes the
sentinel file, so it no longer exists afterwards; if AvailabilityState is
false the destructor deletes nothing. -/
theorem c8_theorem (s : State) (fe : String → Bool) :
    (s.availability = true → s.coordinatorAddress = "" → s.brokerageRoot ≠ "" →
      s.brokerageFilePath = s.brokerageRoot ++ s.hostName →
      applyEffects fe (destruct s) (s.brokerageRoot ++ s.hostName) = false)
    ∧ (s.availability = false → destruct s = []) := by
  constructor
  · intro ha _ _ hpath
    simp [destruct, ha, applyEffects, applyEffect, ← hpath]
  · intro ha
    simp [destruct, ha]

/-- C8 witness: a concrete available filesystem-backend state whose sentinel
file is gone after destruction, starting from a file system where every
file exists. -/
theorem c8_witness :
    applyEffects (fun _ => true)
      (destruct { initialState with
                    availability := true
                    brokerageRoot := "/b/"
                    hostName := "h"
                    brokerageFilePath := "/b/h" })
      ("/b/" ++ "h") = false :=
  (c8_theorem _ _).1 rfl rfl (by decide) rfl

/-- C9: FindWorkers only appends to the caller-supplied worker list — the
result is exactly the input list followed by the entries the call discovers,
which do not depend on the input list. -/
theorem c9_theorem (env : Env) (now : Nat) (w : World) (s : State) (l : List String) :
    (findWorkers env now w s l).2.1 = l ++ (findWorkers env now w s []).2.1 := by
  simp only [findWorkers, findWorkersPostInit_list]
  repeat' split
  all_goals simp

/-- C10: Init is idempotent — a second Init (with any environment and any
time) leaves the whole state unchanged — and both FindWorkers and
SetAvailability are definitionally an Init followed by their bodies. -/
theorem c10_theorem :
    (∀ (e1 e2 : Env) (t1 t2 : Nat) (s : State),
        init e2 t2 (init e1 t1 s) = init e1 t1 s)
    ∧ (∀ (env : Env) (now : Nat) (w : World) (s : State) (l : List String),
        findWorkers env now w s l = findWorkersPostInit (init env now s) w l)
    ∧ (∀ (env : Env) (now : Nat) (w : World) (s : State) (b : Bool),
        setAvailability env now w s b = setAvailabilityPostInit (init env now s) w now b) :=
  ⟨fun e1 e2 t1 t2 s => init_of_initialized e2 t2 _ (init_initialized e1 t1 s),
   fun _ _ _ _ _ => rfl, fun _ _ _ _ _ => rfl⟩

/-- C5 counterexample: with neither environment variable set the backend is
disabled, yet after Init the sentinel path equals the bare host identity
"build-07" (the root, being empty, is concatenated with the host name), not
the empty string the claim requires. -/
theorem c5_counterexample :
    (init envN 0 initialState).brokerageRoot = "" ∧
    (init envN 0 initialState).coordinatorAddress = "" ∧
    (init envN 0 initialState).brokerageFilePath = "build-07" ∧
    ("build-07" : String) ≠ "" :=
  ⟨rfl, rfl, rfl, by decide⟩

/-- C5 amended: after the first Init, the sentinel path equals
brokerage-root ++ host-identity whenever no coordinator address is
configured — with the filesystem backend the root is
`<path>/main/<version>.linux/`, and with no backend at all the root is empty
so the path degenerates to the bare host identity — and the sentinel path is
empty exactly when a coordinator address is configured. -/
theorem c5_theorem (env : Env) (now : Nat) :
    ((init env now initialState).coordinatorAddress = "" →
      (init env now initialState).brokerageFilePath =
        (init env now initialState).brokerageRoot ++ (init env now initialState).hostName)
    ∧ ((init env now initialState).coordinatorAddress ≠ "" →
        (init env now initialState).brokerageFilePath = "")
    ∧ (∀ r : String, (env.coordinatorVar = none ∨ env.coordinatorVar = some "") →
        env.brokeragePathVar = some r →
        (init env now initialState).brokerageRoot =
          r ++ "/main/" ++ toString env.protocolVersion ++ ".linux/") := by
  rcases henv : env.coordinatorVar with _ | c
  · rcases hp : env.brokeragePathVar with _ | r
    · simp [init, initialState, henv, hp]
    · simp [init, initialState, henv, hp]
  · by_cases hc : c = ""
    · subst hc
      rcases hp : env.brokeragePathVar with _ | r
      · simp [init, initialState, henv, hp]
      · simp [init, initialState, henv, hp]
    · simp [init, initialState, henv, hc]

/-- C5 witness: with the filesystem backend the sentinel path is the root
concatenated with the host identity; with the coordinator backend it is
empty. -/
theorem c5_witness :
    (init envFs 0 initialState).brokerageFilePath =
      (init envFs 0 initialState).brokerageRoot ++ (init envFs 0 initialState).hostName ∧
    (init envC 0 initialState).brokerageFilePath = "" :=
  ⟨(c5_theorem envFs 0).1 (by decide), (c5_theorem envC 0).2.1 (by decide)⟩

/-- C7 counterexample: with neither backend configured, SetAvailability(true)
returns early and leaves AvailabilityState at false, so the call does not
end with the state equal to its argument. -/
theorem c7_counterexample :
    (setAvailability envN 0 wFs initialState true).1.availability = false ∧
    (false : Bool) ≠ true :=
  ⟨rfl, by decide⟩

/-- C7 amended: every SetAvailability(b) call made while the brokerage is
configured ends with AvailabilityState = b (including calls absorbed by the
throttle); a call made while the brokerage is unconfigured returns early
and leaves AvailabilityState unchanged. -/
theorem c7_theorem (env : Env) (now : Nat) (w : World) (s : State) (b : Bool) :
    (¬((init env now s).brokerageRoot = "" ∧ (init env now s).coordinatorAddress = "") →
      (setAvailability env now w s b).1.availability = b)
    ∧ (((init env now s).brokerageRoot = "" ∧ (init env now s).coordinatorAddress = "") →
        (setAvailability env now w s b).1.availability = s.availability) := by
  have h := setAvailabilityPostInit_availability (init env now s) w now b
  constructor
  · intro hc
    simp only [setAvailability]
    rw [h, if_neg hc]
  · intro hc
    simp only [setAvailability]
    rw [h, if_pos hc, init_availability]

/-- C7 witness: a throttled SetAvailability(true) on the filesystem backend
(first call after Init, no effects performed) still ends with
AvailabilityState = true. -/
theorem c7_witness :
    (setAvailability envFs 0 wFs initialState true).1.availability = true :=
  (c7_theorem envFs 0 wFs initialState true).1 (by decide)

/-- Effects of the body of `SetAvailability(true)` on a configured
brokerage: nothing inside the throttle window; otherwise a coordinator
exchange on connect success, and the sentinel-file check (plus creation
when the file is missing) on connect failure or with no coordinator. -/
lemma setAvailabilityPostInit_true_effects (s : State) (w : World) (now : Nat)
    (hconf : ¬(s.brokerageRoot = "" ∧ s.coordinatorAddress = "")) :
    (setAvailabilityPostInit s w now true).2 =
      if 10000 ≤ now - s.timerLastUpdate then
        if s.coordinatorAddress = "" then
          (if w.fileExists s.brokerageFilePath then
            [Effect.checkFileExists s.brokerageFilePath]
          else
            [Effect.checkFileExists s.brokerageFilePath,
             Effect.ensurePathExists s.brokerageRoot,
             Effect.createFile s.brokerageFilePath])
        else if w.connectOk then
          [Effect.connectAttempt s.coordinatorAddress true,
           Effect.sendSetWorkerStatus true, Effect.disconnect]
        else
          Effect.connectAttempt s.coordinatorAddress false ::
            (if w.fileExists s.brokerageFilePath then
              [Effect.checkFileExists s.brokerageFilePath]
            else
              [Effect.checkFileExists s.brokerageFilePath,
               Effect.ensurePathExists s.brokerageRoot,
               Effect.createFile s.brokerageFilePath])
      else [] := by
  simp only [setAvailabilityPostInit, connectToCoordinator]
  rw [if_neg hconf]
  by_cases ht : 10000 ≤ now - s.timerLastUpdate
  · by_cases hc : s.coordinatorAddress = ""
    · by_cases hf : w.fileExists s.brokerageFilePath
      · simp [ht, hc, hf]
      · simp [ht, hc, hf]
    · by_cases hw : w.connectOk
      · simp [ht, hc, hw]
      · by_cases hf : w.fileExists s.brokerageFilePath
        · simp [ht, hc, hw, hf]
        · simp [ht, hc, hw, hf]
  · simp [ht]

/-- The throttle timer after the body of `SetAvailability(true)` on a
configured brokerage: it is restarted exactly when the sentinel file was
created (throttle expired, no coordinator connection, file missing). -/
lemma setAvailabilityPostInit_true_timer (s : State) (w : World) (now : Nat)
    (hconf : ¬(s.brokerageRoot = "" ∧ s.coordinatorAddress = "")) :
    (setAvailabilityPostInit s w now true).1.timerLastUpdate =
      if 10000 ≤ now - s.timerLastUpdate
          ∧ (s.coordinatorAddress = "" ∨ w.connectOk = false)
          ∧ w.fileExists s.brokerageFilePath = false then now
      else s.timerLastUpdate := by
  simp only [setAvailabilityPostInit, connectToCoordinator]
  rw [if_neg hconf]
  by_cases ht : 10000 ≤ now - s.timerLastUpdate
  · by_cases hc : s.coordinatorAddress = ""
    · by_cases hf : w.fileExists s.brokerageFilePath
      · simp [ht, hc, hf]
      · simp [ht, hc, hf]
    · by_cases hw : w.connectOk
      · simp [ht, hc, hw]
      · by_cases hf : w.fileExists s.brokerageFilePath
        · simp [ht, hc, hw, hf]
        · simp [ht, hc, hw, hf]
  · simp [ht]

/-- C2 counterexample: on the filesystem backend, the first
SetAvailability(true) after Init — previous AvailabilityState false, t = 0 —
performs no effect at all: the sentinel file is not created, because the
10,000 ms throttle is checked regardless of the previous state and the
timer was just started by Init. -/
theorem c2_counterexample :
    initialState.availability = false ∧
    (init envFs 0 initialState).brokerageRoot = "/b/main/1.linux/" ∧
    (setAvailability envFs 0 wFs initialState true).2 = [] ∧
    (setAvailability envFs 0 wFs initialState true).1.availability = true :=
  ⟨rfl, rfl, rfl, rfl⟩

/-- C2 amended: the 10,000 ms throttle applies to every
SetAvailability(true) call on a configured brokerage regardless of the
previous AvailabilityState: within the throttle window the call performs no
effect at all — in particular the first call after Init is absorbed, the
timer having just been started — while past the window an announcement (a
SetWorkerStatus message or a sentinel-file creation) is performed if and
only if the coordinator connection succeeds or the sentinel file is
missing; if the file is still present, nothing is announced. -/
theorem c2_theorem (env : Env) (now : Nat) (w : World) (s : State)
    (hconf : ¬((init env now s).brokerageRoot = "" ∧ (init env now s).coordinatorAddress = "")) :
    (now - (init env now s).timerLastUpdate < 10000 →
      (setAvailability env now w s true).2 = [])
    ∧ (10000 ≤ now - (init env now s).timerLastUpdate →
        ((Effect.sendSetWorkerStatus true ∈ (setAvailability env now w s true).2 ∨
          Effect.createFile (init env now s).brokerageFilePath ∈
            (setAvailability env now w s true).2)
          ↔ (((init env now s).coordinatorAddress ≠ "" ∧ w.connectOk = true) ∨
              w.fileExists (init env now s).brokerageFilePath = false))) := by
  have heff := setAvailabilityPostInit_true_effects (init env now s) w now hconf
  simp only [setAvailability]
  constructor
  · intro hlt
    rw [heff, if_neg (by omega)]
  · intro ht
    rw [heff, if_pos ht]
    by_cases hc : (init env now s).coordinatorAddress = ""
    · rw [if_pos hc]
      by_cases hf : w.fileExists (init env now s).brokerageFilePath = true
      · rw [if_pos hf]
        simp [hc, hf]
      · have hf2 : w.fileExists (init env now s).brokerageFilePath = false := by
          simpa using hf
        rw [if_neg hf]
        simp [hc, hf2]
    · rw [if_neg hc]
      by_cases hw : w.connectOk = true
      · rw [if_pos hw]
        simp [hc, hw]
      · rw [if_neg hw]
        by_cases hf : w.fileExists (init env now s).brokerageFilePath = true
        · rw [if_pos hf]
          simp [hc, hw, hf]
        · have hf2 : w.fileExists (init env now s).brokerageFilePath = false := by
            simpa using hf
          rw [if_neg hf]
          simp [hc, hw, hf2]

/-- C2 witness: the first SetAvailability(true) after Init on the
filesystem backend — previous state false, timer just started — performs no
effect. -/
theorem c2_witness : (setAvailability envFs 0 wFs initialState true).2 = [] :=
  (c2_theorem envFs 0 wFs initialState (by decide)).1 (by decide)

/-- C4 counterexample: with the coordinator backend, a SetAvailability(true)
call at t = 20000 ms sends SetWorkerStatus(true) — an announcement — yet the
throttle timer keeps its Init value 0: the coordinator path of the
available branch never restarts the timer. -/
theorem c4_counterexample :
    Effect.sendSetWorkerStatus true ∈
      (setAvailability envC 20000 wC (init envC 0 initialState) true).2 ∧
    (init envC 0 initialState).timerLastUpdate = 0 ∧
    (setAvailability envC 20000 wC (init envC 0 initialState) true).1.timerLastUpdate = 0 ∧
    (0 : Nat) ≠ 20000 :=
  ⟨by decide, rfl, rfl, by decide⟩

/-- C4 amended: in SetAvailability(true) past the throttle window, the timer
is restarted exactly when the sentinel file is created (filesystem path,
file missing); a SetWorkerStatus announcement sent to the coordinator does
not restart it, and neither does the filesystem path when the sentinel file
is still present. -/
theorem c4_theorem (env : Env) (now : Nat) (w : World) (s : State)
    (hconf : ¬((init env now s).brokerageRoot = "" ∧ (init env now s).coordinatorAddress = ""))
    (ht : 10000 ≤ now - (init env now s).timerLastUpdate) :
    ((init env now s).coordinatorAddress ≠ "" → w.connectOk = true →
      Effect.sendSetWorkerStatus true ∈ (setAvailability env now w s true).2 ∧
      (setAvailability env now w s true).1.timerLastUpdate = (init env now s).timerLastUpdate)
    ∧ (((init env now s).coordinatorAddress = "" ∨ w.connectOk = false) →
        w.fileExists (init env now s).brokerageFilePath = false →
        Effect.createFile (init env now s).brokerageFilePath ∈
          (setAvailability env now w s true).2 ∧
        (setAvailability env now w s true).1.timerLastUpdate = now)
    ∧ (((init env now s).coordinatorAddress = "" ∨ w.connectOk = false) →
        w.fileExists (init env now s).brokerageFilePath = true →
        (setAvailability env now w s true).1.timerLastUpdate
          = (init env now s).timerLastUpdate) := by
  have heff := setAvailabilityPostInit_true_effects (init env now s) w now hconf
  have htim := setAvailabilityPostInit_true_timer (init env now s) w now hconf
  simp only [setAvailability]
  refine ⟨?_, ?_, ?_⟩
  · intro hc hw
    constructor
    · rw [heff, if_pos ht, if_neg hc, if_pos hw]
      simp
    · rw [htim, if_neg (by simp [hc, hw])]
  · intro hor hf
    constructor
    · rw [heff, if_pos ht]
      rcases hor with hc | hw
      · simp [hc, hf]
      · by_cases hc : (init env now s).coordinatorAddress = ""
        · simp [hc, hf]
        · simp [hc, hw, hf]
    · rw [htim, if_pos ⟨ht, hor, hf⟩]
  · intro hor hf
    rw [htim, if_neg (by simp [hf])]

/-- C4 witness: a coordinator announcement at t = 20000 ms leaves the timer
at its Init value. -/
theorem c4_witness :
    Effect.sendSetWorkerStatus true ∈
      (setAvailability envC 20000 wC (init envC 0 initialState) true).2 ∧
    (setAvailability envC 20000 wC (init envC 0 initialState) true).1.timerLastUpdate =
      (init envC 20000 (init envC 0 initialState)).timerLastUpdate :=
  (c4_theorem envC 20000 wC (init envC 0 initialState) (by decide) (by decide)).1
    (by decide) rfl

/-- C1 counterexample: on the filesystem backend the loopback filter is
absent — a sentinel file named 127.0.0.1 in the rendezvous directory is
returned by FindWorkers (while the local host identity build-07 is filtered
case-insensitively, dropping BUILD-07). -/
theorem c1_counterexample :
    (findWorkers envFs 0 wFs initialState []).2.1 = ["127.0.0.1", "build-03"] ∧
    "127.0.0.1" ∈ (findWorkers envFs 0 wFs initialState []).2.1 :=
  ⟨rfl, by decide⟩

/-- C1 amended: every entry FindWorkers adds to the list differs
case-insensitively from the local host identity; the additional exclusion
of 127.0.0.1 holds only for entries produced by the coordinator backend —
the filesystem backend filters solely on the host identity. -/
theorem c1_theorem (env : Env) (now : Nat) (w : World) (s : State) (l : List String)
    (entry : String) (hm : entry ∈ (findWorkers env now w s l).2.1) :
    entry ∈ l ∨
      (compareI entry (init env now s).hostName = false ∧
        ((init env now s).coordinatorAddress ≠ "" → w.connectOk = true →
          compareI entry "127.0.0.1" = false)) := by
  simp only [findWorkers] at hm
  rw [findWorkersPostInit_list] at hm
  by_cases h0 : (init env now s).brokerageRoot = "" ∧ (init env now s).coordinatorAddress = ""
  · rw [if_pos h0] at hm
    exact Or.inl hm
  · rw [if_neg h0] at hm
    by_cases h1 : (init env now s).coordinatorAddress ≠ "" ∧ w.connectOk = true
    · rw [if_pos h1] at hm
      rcases List.mem_append.mp hm with h | h
      · exact Or.inl h
      · obtain ⟨-, hcond⟩ := List.mem_filter.mp h
        simp only [Bool.and_eq_true, Bool.not_eq_true'] at hcond
        exact Or.inr ⟨hcond.1, fun _ _ => hcond.2⟩
    · rw [if_neg h1] at hm
      by_cases h2 : (init env now s).brokerageRoot ≠ ""
      · rw [if_pos h2] at hm
        rcases hd : w.dirListing with _ | files
        · rw [hd] at hm
          exact Or.inl hm
        · rw [hd] at hm
          rcases List.mem_append.mp hm with h | h
          · exact Or.inl h
          · obtain ⟨-, hcond⟩ := List.mem_filter.mp h
            simp only [Bool.not_eq_true'] at hcond
            exact Or.inr ⟨hcond, fun hcoord hwok => absurd ⟨hcoord, hwok⟩ h1⟩
      · rw [if_neg h2] at hm
        exact Or.inl hm

/-- C1 witness: a coordinator-supplied entry that survives the filter
(10.0.0.5 against host identity build-07) satisfies both exclusions. -/
theorem c1_witness :
    "10.0.0.5" ∈ ["10.0.0.5"] ∨
      (compareI "10.0.0.5" (init envC 0 (init envC 0 initialState)).hostName = false ∧
        ((init envC 0 (init envC 0 initialState)).coordinatorAddress ≠ "" →
          wC.connectOk = true → compareI "10.0.0.5" "127.0.0.1" = false)) :=
  c1_theorem envC 0 wC (init envC 0 initialState) ["10.0.0.5"] "10.0.0.5" (by decide)

lemma findWorkersPostInit_no_fs (s : State) (w : World) (l : List String)
    (hr : s.brokerageRoot = "") :
    (findWorkersPostInit s w l).2.2.all (fun e => !e.isFileSystemOp) = true := by
  by_cases hc : s.coordinatorAddress = ""
  · simp [findWorkersPostInit, connectToCoordinator, hr, hc, Effect.isFileSystemOp]
  · by_cases hw : w.connectOk
    · by_cases hlen : w.coordinatorReply.length = 0
      · simp [findWorkersPostInit, connectToCoordinator, hr, hc, hw, hlen,
              Effect.isFileSystemOp]
      · simp [findWorkersPostInit, connectToCoordinator, hr, hc, hw, hlen,
              Effect.isFileSystemOp]
    · simp [findWorkersPostInit, connectToCoordinator, hr, hc, hw, Effect.isFileSystemOp]

lemma findWorkersPostInit_unreachable (s : State) (w : World) (l : List String)
    (hr : s.brokerageRoot = "") (hc : s.coordinatorAddress ≠ "") (hw : w.connectOk = false) :
    (findWorkersPostInit s w l).2.1 = l := by
  rw [findWorkersPostInit_list,
      if_neg (fun h => hc h.2), if_neg (by simp [hw]), if_neg (by simp [hr])]

/-- C3 counterexample: with a coordinator configured but unreachable,
SetAvailability(true) past the throttle window falls into the filesystem
branch: it checks for and creates the (degenerate, empty-path) sentinel
file — filesystem operations performed while in coordinator mode. -/
theorem c3_counterexample :
    (init envC 0 initialState).coordinatorAddress = "10.0.0.1" ∧
    (setAvailability envC 20000 wCfail (init envC 0 initialState) true).2 =
      [Effect.connectAttempt "10.0.0.1" false, Effect.checkFileExists "",
       Effect.ensurePathExists "", Effect.createFile ""] ∧
    (setAvailability envC 20000 wCfail (init envC 0 initialState) true).2.any
      Effect.isFileSystemOp = true :=
  ⟨rfl, rfl, rfl⟩

/-- C3 amended: when a coordinator address is configured at first Init, the
brokerage root stays empty (even with FASTBUILD_BROKERAGE_PATH set), so
FindWorkers performs no filesystem operation and, with the coordinator
unreachable, returns its input list unchanged; SetAvailability(true) with
the coordinator unreachable, however, does fall into the filesystem branch,
operating on the empty sentinel path and root. -/
theorem c3_theorem (env : Env) (c : String) (hc : env.coordinatorVar = some c) (hne : c ≠ "")
    (t0 now : Nat) (w : World) (l : List String) :
    ((findWorkers env now w (init env t0 initialState) l).2.2.all
        (fun e => !e.isFileSystemOp) = true)
    ∧ (w.connectOk = false →
        (findWorkers env now w (init env t0 initialState) l).2.1 = l)
    ∧ (w.connectOk = false → 10000 ≤ now - t0 → w.fileExists "" = false →
        (setAvailability env now w (init env t0 initialState) true).2 =
          [Effect.connectAttempt c false, Effect.checkFileExists "",
           Effect.ensurePathExists "", Effect.createFile ""]) := by
  rw [init_coordinator env c hc hne t0]
  refine ⟨?_, ?_, ?_⟩
  · simp only [findWorkers]
    rw [init_of_initialized env now _ rfl]
    exact findWorkersPostInit_no_fs _ w l rfl
  · intro hw
    simp only [findWorkers]
    rw [init_of_initialized env now _ rfl]
    exact findWorkersPostInit_unreachable _ w l rfl hne hw
  · intro hw ht hf
    simp only [setAvailability]
    rw [init_of_initialized env now _ rfl]
    rw [setAvailabilityPostInit_true_effects _ w now (fun h => hne h.2)]
    rw [if_pos ht, if_neg hne, if_neg (by simp [hw])]
    simp only [initialState, hf]
    rw [if_neg (by simp [hf])]

/-- C3 witness: FindWorkers with the coordinator configured and unreachable
returns its input list unchanged even though FASTBUILD_BROKERAGE_PATH is
set in the environment. -/
theorem c3_witness :
    (findWorkers envC 20000 wCfail (init envC 0 initialState) ["10.0.0.9"]).2.1
      = ["10.0.0.9"] :=
  (c3_theorem envC "10.0.0.1" rfl (by decide) 0 20000 wCfail ["10.0.0.9"]).2.1 rfl

end WorkerBrokerage
